import Mathlib

/-!
Verification development for the surreality-logging repository.

The repository contains two sibling modules:

* `src/surreality_logging/__init__.py` — configuration of the standard
  `logging` module (`StandardizedFormatter`, `configure_logging`,
  `configure_uvicorn_logging`, `get_logger`, rotating file handler).
  Embedded below in namespace `Surreality.StdLog` (and `Surreality.Rotation`
  for the size-based rotation policy the module configures through
  `logging.handlers.RotatingFileHandler`, following the semantics the module
  itself documents at lines 142-144: on reaching the size limit the active
  file is renamed to backup slot 1, older backups shift up, and after
  `backup_count` files the oldest is deleted).

* `src/python/surreality_logging/__init__.py` — the Loguru-based variant
  (`configure_logging`, `intercept_standard_logging`, `get_logger`).
  Embedded below in namespace `Surreality.LoguruLog`.

Machine integers do not occur; Python ints are modelled as `Nat`.
Levels use the numeric values of the `logging` module
(DEBUG 10, INFO 20, WARNING 30, ERROR 40, CRITICAL 50).
-/

namespace Surreality

/-- The ASCII escape character that starts every ANSI color sequence. -/
def escChar : Char := Char.ofNat 27

/-- Whether a string contains the escape character (hence an ANSI sequence). -/
def hasEsc (s : String) : Bool := s.data.any (fun c => c == escChar)

/-- The five standard levels, ordered DEBUG < INFO < WARNING < ERROR < CRITICAL. -/
inductive Level
  | debug
  | info
  | warning
  | error
  | critical
deriving DecidableEq

/-- Numeric value of a level, as in the Python `logging` module. -/
def Level.no : Level → Nat
  | .debug => 10
  | .info => 20
  | .warning => 30
  | .error => 40
  | .critical => 50

namespace StdLog

/-- `StandardizedFormatter.COLORS` (src/surreality_logging/__init__.py lines 34-40). -/
def COLORS : List (String × String) :=
  [("DEBUG", "\x1b[90m"), ("INFO", "\x1b[90m"), ("WARNING", "\x1b[93m"),
   ("ERROR", "\x1b[91m"), ("CRITICAL", "\x1b[91;1m")]

/-- `StandardizedFormatter.RESET` (line 41). -/
def RESET : String := "\x1b[0m"

/-- A `logging.LogRecord`, restricted to the constructor fields the embedded
format strings read.  `asctime` stands for the formatted creation time
(deterministically derived from `record.created`/`record.msecs`). -/
structure LogRecord where
  name : String
  levelname : String
  lineno : Nat
  msg : String
  asctime : String
deriving DecidableEq

/-- The base `logging.Formatter.format` applied to the format string built by
`configure_logging` (lines 101-103):
`[%(asctime)s] [%(levelname)s] [%(name)s:%(lineno)d] %(message)s`, with an
extra `[service_name]` block when a service name is given. -/
def baseFormat (serviceName : Option String) (r : LogRecord) : String :=
  match serviceName with
  | none =>
    "[" ++ r.asctime ++ "] [" ++ r.levelname ++ "] [" ++ r.name ++ ":" ++
      Nat.repr r.lineno ++ "] " ++ r.msg
  | some s =>
    "[" ++ r.asctime ++ "] [" ++ r.levelname ++ "] [" ++ s ++ "] [" ++ r.name ++ ":" ++
      Nat.repr r.lineno ++ "] " ++ r.msg

/-- `StandardizedFormatter.format` (lines 43-63).  `isatty` is the value of
`sys.stdout.isatty()` — note the source consults the process stdout, not the
stream the formatted line is written to.  Returns the formatted string
together with the record as it is after the call (the source temporarily
overwrites `record.levelname` and restores it before returning). -/
def StandardizedFormatter.format (isatty : Bool) (serviceName : Option String)
    (r : LogRecord) : String × LogRecord :=
  let levelname := r.levelname
  let colored_levelname :=
    if isatty then
      match COLORS.lookup levelname with
      | some c => c ++ levelname ++ RESET
      | none => levelname
    else levelname
  let r1 := { r with levelname := colored_levelname }
  let formatted := baseFormat serviceName r1
  let r2 := { r1 with levelname := levelname }
  (formatted, r2)

/-- The line persisted by the rotating file handler for one record.
`configure_logging` (lines 145-153) attaches the *same* formatter object to
the file handler as to the console handler, so the file line is produced by
`StandardizedFormatter.format` with the same `sys.stdout.isatty()` check. -/
def fileLine (isatty : Bool) (serviceName : Option String) (r : LogRecord) : String :=
  (StandardizedFormatter.format isatty serviceName r).1

/-- A `logging.Handler` as configured by this module: its level threshold and
whether it is the rotating file handler. -/
structure StdHandler where
  level : Nat
  isFile : Bool
deriving DecidableEq

/-- A `logging.Logger`: level, attached handlers, propagation flag. -/
structure StdLogger where
  level : Nat
  handlers : List StdHandler
  propagate : Bool
deriving DecidableEq

/-- The process-wide logging state touched by this module: the root logger and
the three uvicorn loggers configured by `configure_uvicorn_logging`. -/
structure StdState where
  root : StdLogger
  uvicorn : StdLogger
  uvicornError : StdLogger
  uvicornAccess : StdLogger
deriving DecidableEq

/-- The logger built inside the loop of `configure_uvicorn_logging`
(lines 187-211): handlers cleared then a fresh console handler (level unset,
i.e. 0) and, when a log file is configured, a fresh file handler are attached;
the level is set and propagation disabled. -/
def uvicornConfiguredLogger (level : Nat) (withFile : Bool) : StdLogger :=
  { level := level,
    handlers := ⟨0, false⟩ :: (if withFile then [⟨0, true⟩] else []),
    propagate := false }

/-- `configure_uvicorn_logging` (lines 164-215): configures the three uvicorn
loggers, then lowers the verbosity of `uvicorn.access` to WARNING (line 215). -/
def configure_uvicorn_logging (level : Nat) (withFile : Bool) (s : StdState) : StdState :=
  { s with
    uvicorn := uvicornConfiguredLogger level withFile,
    uvicornError := uvicornConfiguredLogger level withFile,
    uvicornAccess := { uvicornConfiguredLogger level withFile with level := 30 } }

/-- `configure_logging` (lines 66-161): the root logger's level is set, its
existing handlers are cleared (line 129), a console handler at `level` is
attached, a rotating file handler at `level` is attached when a log file is
given, and the uvicorn loggers are configured when requested. -/
def configure_logging (level : Nat) (includeUvicorn : Bool) (withFile : Bool)
    (s : StdState) : StdState :=
  let root1 : StdLogger :=
    { level := level,
      handlers := ⟨level, false⟩ :: (if withFile then [⟨level, true⟩] else []),
      propagate := s.root.propagate }
  let s1 := { s with root := root1 }
  if includeUvicorn then configure_uvicorn_logging level withFile s1 else s1

/-- Number of lines a single handler writes for a record at `levelno`
(`logging.Handler.handle`: one line when the record passes the handler's
threshold). -/
def handlerLines (levelno : Nat) (h : StdHandler) : Nat :=
  if h.level ≤ levelno then 1 else 0

/-- Number of output lines a record emitted on a logger produces on that
logger's own handlers (`Logger.isEnabledFor` gate, then `callHandlers`). -/
def loggerLines (lg : StdLogger) (levelno : Nat) : Nat :=
  if lg.level ≤ levelno then (lg.handlers.map (handlerLines levelno)).sum else 0

/-- The state of a fresh interpreter: root logger at WARNING with no handlers,
uvicorn loggers unset. -/
def initStdState : StdState :=
  { root := ⟨30, [], true⟩,
    uvicorn := ⟨0, [], true⟩,
    uvicornError := ⟨0, [], true⟩,
    uvicornAccess := ⟨0, [], true⟩ }

/-- A record with no escape character in any field. -/
def sampleRecord : LogRecord :=
  ⟨"app", "INFO", 1, "hello", "2025-01-01 00:00:00,000"⟩

/-- A record whose message text itself contains an ANSI escape sequence. -/
def escRecord : LogRecord :=
  ⟨"app", "INFO", 7, "\x1b[91mboom", "2025-01-01 00:00:00,000"⟩

end StdLog

namespace Rotation

/-- The files owned by one rotating file sink: the records in the active file
and the backup files (`app.log.1` first, i.e. newest first). -/
structure RotState where
  active : List String
  backups : List (List String)
deriving DecidableEq

/-- A freshly opened sink: empty active file, no backups. -/
def rotInit : RotState := ⟨[], []⟩

/-- Size in bytes of a file holding the given record lines (each record is
written as its formatted message followed by a newline). -/
def fileSize (f : List String) : Nat := (f.map (fun m => m.length + 1)).sum

/-- `RotatingFileHandler.shouldRollover`: rotate when a positive size limit is
configured and writing the next record would reach or exceed it. -/
def shouldRollover (maxBytes : Nat) (s : RotState) (msg : String) : Bool :=
  decide (0 < maxBytes) && decide (maxBytes ≤ fileSize s.active + (msg.length + 1))

/-- `RotatingFileHandler.doRollover`: with a positive backup count the active
file becomes backup slot 1, previous backups shift up one slot, any backup
beyond the count is deleted, and a fresh active file is opened.  With backup
count 0 the stream is merely closed and reopened in append mode: contents are
preserved and no backup is created. -/
def doRollover (backupCount : Nat) (s : RotState) : RotState :=
  if 0 < backupCount then
    { active := [], backups := s.active :: s.backups.take (backupCount - 1) }
  else s

/-- Emitting one record through the rotating file sink: roll over first when
required, then append the record to the active file.  The boolean reports
whether a rotation was performed for this write. -/
def rotEmit (maxBytes backupCount : Nat) (s : RotState) (msg : String) :
    RotState × Bool :=
  if shouldRollover maxBytes s msg then
    let s1 := doRollover backupCount s
    ({ s1 with active := s1.active ++ [msg] }, true)
  else
    ({ s with active := s.active ++ [msg] }, false)

/-- Emitting a sequence of records, counting the rotations performed. -/
def rotRun (maxBytes backupCount : Nat) (s : RotState) :
    List String → RotState × Nat
  | [] => (s, 0)
  | m :: rest =>
    let p := rotEmit maxBytes backupCount s m
    let q := rotRun maxBytes backupCount p.1 rest
    (q.1, (if p.2 then 1 else 0) + q.2)

end Rotation

namespace LoguruLog

/-- A level argument as the Python code may receive it: a level-name string or
a raw numeric level. -/
inductive PyLevel
  | str (s : String)
  | num (n : Nat)
deriving DecidableEq

/-- One entry of `additional_loggers`: a bare logger name or a
(name, level) pair (src/python/surreality_logging/__init__.py lines 152-157). -/
inductive LoggerSpec
  | plain (name : String)
  | withLevel (name : String) (lv : PyLevel)
deriving DecidableEq

/-- One character's image under Python's `str.upper()`, modelled exactly on
the inputs that can affect the `getattr` lookup below: ASCII letters are
uppercased, and the characters whose full Unicode uppercase mapping is a
string of ASCII letters (dotless ı, long ſ, ß, and the Latin ligatures
ﬀ ﬁ ﬂ ﬃ ﬄ ﬅ ﬆ) are expanded accordingly.  Every other character is left
unchanged: its real uppercase image is non-ASCII, and a string containing a
non-ASCII character — whether mapped or left as is — matches no ASCII
attribute name, so the lookup result is the same either way. -/
def pyUpperChar (c : Char) : List Char :=
  if c = 'ı' then ['I']
  else if c = 'ſ' then ['S']
  else if c = 'ß' then ['S', 'S']
  else if c = 'ﬀ' then ['F', 'F']
  else if c = 'ﬁ' then ['F', 'I']
  else if c = 'ﬂ' then ['F', 'L']
  else if c = 'ﬃ' then ['F', 'F', 'I']
  else if c = 'ﬄ' then ['F', 'F', 'L']
  else if c = 'ﬅ' then ['S', 'T']
  else if c = 'ﬆ' then ['S', 'T']
  else [c.toUpper]

/-- Python's `str.upper()` (see `pyUpperChar` for the modelled scope). -/
def pyUpper (s : String) : String := String.mk ((s.data.map pyUpperChar).flatten)

/-- A value `getattr(logging, ...)` can return: one of the integer level
constants, or an attribute that is not an integer level (a string, a dict,
a class, ...). -/
inductive PyObj
  | int (n : Nat)
  | nonLevel
deriving DecidableEq

/-- The attributes of the `logging` module reachable through
`getattr(logging, logger_level.upper(), ...)` (line 167).  The output of
`str.upper()` never contains an ASCII lowercase letter, so only module
attributes whose names are free of ASCII lowercase are reachable: the eight
integer level constants, the format string `BASIC_FORMAT`, and the internal
style table `_STYLES`.  The latter two are not integer levels. -/
def loggingAttrs : List (String × PyObj) :=
  [("CRITICAL", .int 50), ("FATAL", .int 50), ("ERROR", .int 40),
   ("WARN", .int 30), ("WARNING", .int 30), ("INFO", .int 20),
   ("DEBUG", .int 10), ("NOTSET", .int 0),
   ("BASIC_FORMAT", .nonLevel), ("_STYLES", .nonLevel)]

/-- `getattr(logging, s.upper(), logging.INFO)` (line 167): the named module
attribute when it exists, else the default `logging.INFO` (20). -/
def getattrLevel (s : String) : PyObj :=
  match loggingAttrs.lookup (pyUpper s) with
  | some a => a
  | none => .int 20

/-- `Logger.setLevel`, i.e. `logging._checkLevel` (line 168): an integer
passes through; any non-level attribute value raises (`ValueError` for a
string not among the level names, `TypeError` otherwise). -/
def checkLevel : PyObj → Except String Nat
  | .int n => Except.ok n
  | .nonLevel => Except.error "Unknown level"

/-- The level the loop at lines 160-168 sets for one configured spec — a
string is uppercased and resolved through `getattr` then `setLevel`, a
numeric level is set as is — or the error `setLevel` raises. -/
def resolveLevel : PyLevel → Except String Nat
  | .str s => checkLevel (getattrLevel s)
  | .num n => Except.ok n

/-- `loggers_to_configure` (lines 144-157): the three uvicorn loggers — with
`uvicorn.access` floored at WARNING — followed by the additional loggers, a
bare name receiving the global level. -/
def loggersToConfigure (level : String) (additional : List LoggerSpec) :
    List (String × PyLevel) :=
  [("uvicorn", .str level), ("uvicorn.error", .str level),
   ("uvicorn.access", .str "WARNING")] ++
  additional.map (fun spec =>
    match spec with
    | .plain n => (n, .str level)
    | .withLevel n lv => (n, lv))

/-- A standard-library logger as the interception code leaves it: its level,
how many `InterceptHandler`s are attached, and its propagation flag. -/
structure ILogger where
  level : Nat
  nhandlers : Nat
  propagate : Bool
deriving DecidableEq

/-- The root logger after `logging.basicConfig(handlers=[InterceptHandler()],
level=0, force=True)` (line 142). -/
def interceptRoot : ILogger := ⟨0, 1, true⟩

/-- The configuration the loop at lines 160-168 leaves on a named logger once
its entry completes: `handlers = [InterceptHandler()]`, `propagate = False`,
level resolved from the spec.  A name listed twice is configured by its last
occurrence; `none` when the name is not configured at all or its `setLevel`
raised (aborting setup before the logger was fully configured). -/
def interceptedLoggerFor (level : String) (additional : List LoggerSpec)
    (name : String) : Option ILogger :=
  ((loggersToConfigure level additional).reverse.lookup name).bind
    (fun lv => (resolveLevel lv).toOption.map (fun n => ⟨n, 1, false⟩))

/-- Console lines produced when one record at `levelno` is emitted on an
intercepted standard-library logger: the logger's own level gates the record;
each attached `InterceptHandler` re-emits it through the single Loguru console
sink, which prints one line when the record passes the sink's level; when the
logger propagates, the root logger's handlers fire as well (`callHandlers`
walks ancestors without re-checking their logger levels). -/
def emitIntercepted (sinkLevel : Nat) (root lg : ILogger) (levelno : Nat) : Nat :=
  if lg.level ≤ levelno then
    (lg.nhandlers + (if lg.propagate then root.nhandlers else 0)) *
      (if sinkLevel ≤ levelno then 1 else 0)
  else 0

/-- Loguru's built-in severity levels, used by `logger.add(..., level=level)`;
an unknown name makes `add` raise `ValueError`. -/
def loguruLevelTable : List (String × Nat) :=
  [("TRACE", 5), ("DEBUG", 10), ("INFO", 20), ("SUCCESS", 25),
   ("WARNING", 30), ("ERROR", 40), ("CRITICAL", 50)]

/-- `logger.add` level handling: the numeric threshold of a known level name,
or a `ValueError` for an unknown one. -/
def loguruAdd (level : String) : Except String Nat :=
  match loguruLevelTable.lookup level with
  | some n => Except.ok n
  | none => Except.error "invalid level name"

/-- The per-logger loop of `intercept_standard_logging` (lines 160-168):
each configured logger's level is resolved and set in order, and the first
`setLevel` failure aborts configuration with that error. -/
def resolveAll : List (String × PyLevel) → Except String (List (String × Nat))
  | [] => Except.ok []
  | (nm, lv) :: rest =>
    match resolveLevel lv with
    | Except.error e => Except.error e
    | Except.ok n =>
      match resolveAll rest with
      | Except.error e => Except.error e
      | Except.ok ps => Except.ok ((nm, n) :: ps)

/-- `configure_logging` of the Loguru module (lines 19-101), console-only
path: `logger.remove()` then `logger.add(sys.stdout, ..., level=level)` —
which fails on an unknown global level name — then
`intercept_standard_logging(level, additional_loggers)`, whose loop fails only
when `setLevel` raises on a resolved per-logger level (see `resolveLevel`).
Returns the console sink's numeric threshold and the (name, resolved level)
pairs configured. -/
def configure_logging (level : String) (additional : List LoggerSpec) :
    Except String (Nat × List (String × Nat)) :=
  match loguruAdd level with
  | Except.error e => Except.error e
  | Except.ok n =>
    match resolveAll (loggersToConfigure level additional) with
    | Except.error e => Except.error e
    | Except.ok pairs => Except.ok (n, pairs)

/-- A Loguru record, restricted to the fields the module's format strings
(lines 64 and 67) read. -/
structure LoguruRecord where
  time : String
  level : String
  name : String
  function : String
  line : Nat
  message : String
deriving DecidableEq

/-- Loguru's `{level: <8}` directive: left-justify in a field of width 8. -/
def padLeftJust (s : String) (n : Nat) : String :=
  s ++ String.mk (List.replicate (n - s.length) ' ')

/-- The uncolorized format string (line 67, also the file-sink format of
line 87): `time | LEVEL    | name:function:line - message`. -/
def loguruPlainLine (r : LoguruRecord) : String :=
  r.time ++ " | " ++ padLeftJust r.level 8 ++ " | " ++ r.name ++ ":" ++
    r.function ++ ":" ++ Nat.repr r.line ++ " - " ++ r.message

/-- Loguru's default ANSI codes for the `<level>` markup, per level name. -/
def levelAnsi : List (String × String) :=
  [("TRACE", "\x1b[36m\x1b[1m"), ("DEBUG", "\x1b[34m\x1b[1m"), ("INFO", "\x1b[1m"),
   ("SUCCESS", "\x1b[32m\x1b[1m"), ("WARNING", "\x1b[33m\x1b[1m"),
   ("ERROR", "\x1b[31m\x1b[1m"), ("CRITICAL", "\x1b[41m\x1b[1m")]

/-- ANSI code for the `<level>` markup of a record's level. -/
def ansiLevel (lv : String) : String := (levelAnsi.lookup lv).getD ""

/-- ANSI code emitted for the `<green>` markup. -/
def GREEN : String := "\x1b[32m"

/-- ANSI code emitted for the `<cyan>` markup. -/
def CYAN : String := "\x1b[36m"

/-- ANSI reset code emitted for closing markup tags. -/
def RESETA : String := "\x1b[0m"

/-- The colorized format string of line 64 with its markup tags rendered to
ANSI codes, as Loguru does when the sink's `colorize` option is true. -/
def loguruColorLine (r : LoguruRecord) : String :=
  GREEN ++ r.time ++ RESETA ++ " | " ++
    ansiLevel r.level ++ padLeftJust r.level 8 ++ RESETA ++ " | " ++
    CYAN ++ r.name ++ RESETA ++ ":" ++ CYAN ++ r.function ++ RESETA ++ ":" ++
    CYAN ++ Nat.repr r.line ++ RESETA ++ " - " ++
    ansiLevel r.level ++ r.message ++ RESETA

/-- The console line for one record.  `logger.add(sys.stdout, ...,
colorize=colorize)` (lines 70-75) passes the `colorize` flag explicitly
(default `True`), so Loguru's tty auto-detection is bypassed and the output
depends only on the flag, never on whether stdout is a terminal. -/
def consoleLine (colorize : Bool) (r : LoguruRecord) : String :=
  if colorize then loguruColorLine r else loguruPlainLine r

/-- A Loguru record with no escape character in any field. -/
def sampleLoguruRecord : LoguruRecord :=
  ⟨"2025-01-01 00:00:00.000", "INFO", "app", "main", 1, "hello"⟩

/-- Object identity of a Loguru logger handle.  The module holds one global
`logger` object imported from `loguru`. -/
structure LoguruHandle where
  objectId : Nat
deriving DecidableEq

/-- The module-level global `logger` object (line 15). -/
def theLogger : LoguruHandle := ⟨0⟩

/-- `get_logger` (lines 171-189): returns the global Loguru logger, ignoring
the `name` argument. -/
def get_logger (name : Option String) : LoguruHandle := theLogger

end LoguruLog

/-! ## Helper lemmas -/

theorem data_append (a b : String) : (a ++ b).data = a.data ++ b.data :=
  String.data_append a b

theorem hasEsc_append (a b : String) :
    hasEsc (a ++ b) = (hasEsc a || hasEsc b) := by
  simp [hasEsc, data_append, List.any_append]

theorem digitChar_beq_escChar (n : Nat) : (Nat.digitChar n == escChar) = false := by
  match n with
  | 0 => decide
  | 1 => decide
  | 2 => decide
  | 3 => decide
  | 4 => decide
  | 5 => decide
  | 6 => decide
  | 7 => decide
  | 8 => decide
  | 9 => decide
  | 10 => decide
  | 11 => decide
  | 12 => decide
  | 13 => decide
  | 14 => decide
  | 15 => decide
  | (m + 16) =>
    have h : Nat.digitChar (m + 16) = '*' := by
      unfold Nat.digitChar
      repeat rw [if_neg (by omega)]
    rw [h]
    decide

theorem toDigitsCore_no_esc (b fuel n : Nat) (ds : List Char)
    (h : ds.any (fun c => c == escChar) = false) :
    (Nat.toDigitsCore b fuel n ds).any (fun c => c == escChar) = false := by
  induction fuel generalizing n ds with
  | zero => simpa [Nat.toDigitsCore] using h
  | succ f ih =>
    unfold Nat.toDigitsCore
    simp only []
    split
    · simp [List.any_cons, digitChar_beq_escChar, h]
    · exact ih _ _ (by simp [List.any_cons, digitChar_beq_escChar, h])

theorem hasEsc_natRepr (n : Nat) : hasEsc (Nat.repr n) = false := by
  have hdata : (Nat.repr n).data = Nat.toDigits 10 n := rfl
  show (Nat.repr n).data.any (fun c => c == escChar) = false
  rw [hdata]
  exact toDigitsCore_no_esc 10 (n + 1) n [] rfl

theorem hasEsc_spaces (k : Nat) : hasEsc (String.mk (List.replicate k ' ')) = false := by
  simp only [hasEsc, List.any_eq_true]
  simp only [Bool.eq_false_iff, ne_eq, List.any_eq_true, not_exists, not_and]
  intro c hc
  have : c = ' ' := List.eq_of_mem_replicate hc
  subst this
  decide

theorem hasEsc_padLeftJust (s : String) (n : Nat) :
    hasEsc (LoguruLog.padLeftJust s n) = hasEsc s := by
  simp [LoguruLog.padLeftJust, hasEsc_append, hasEsc_spaces]

/-! ## Claim theorems -/

/-- Claim C8: `StandardizedFormatter.format` leaves every field of the input
record equal to its value before the call — the temporary overwrite of
`levelname` is fully reverted — and therefore formatting the same record twice
yields byte-identical output both times. -/
theorem c8_format_restores_record (isatty : Bool) (serviceName : Option String)
    (r : StdLog.LogRecord) :
    (StdLog.StandardizedFormatter.format isatty serviceName r).2 = r ∧
    (StdLog.StandardizedFormatter.format isatty serviceName
        ((StdLog.StandardizedFormatter.format isatty serviceName r).2)).1
      = (StdLog.StandardizedFormatter.format isatty serviceName r).1 := by
  have h2 : (StdLog.StandardizedFormatter.format isatty serviceName r).2 = r := by
    cases r
    simp [StdLog.StandardizedFormatter.format]
  exact ⟨h2, by rw [h2]⟩

/-- Claim C10: in the Loguru-based module `get_logger` returns the one global
logger object whatever the name argument is, so any two calls return the
identical handle. -/
theorem c10_get_logger_global (a b : Option String) :
    LoguruLog.get_logger a = LoguruLog.get_logger b ∧
    LoguruLog.get_logger a = LoguruLog.theLogger :=
  ⟨rfl, rfl⟩

/-- Claim C7 (failing-input evaluation): with a file sink configured and
`sys.stdout.isatty()` true, the line the rotating file handler persists for an
INFO record carries the gray/reset ANSI color codes — the shared formatter
colors by the state of stdout, not by the destination stream — contradicting
the specification that file lines contain no color codes. -/
theorem c7_file_line_contains_colors :
    StdLog.fileLine true none StdLog.sampleRecord
      = "[2025-01-01 00:00:00,000] [\x1b[90mINFO\x1b[0m] [app:1] hello" ∧
    hasEsc (StdLog.fileLine true none StdLog.sampleRecord) = true := by
  constructor
  · decide
  · decide

/-- Claim C4: with the default policy table and global level INFO, the
`uvicorn.access` logger is floored at WARNING (30), the Loguru console sink is
at INFO (20), and a record on `uvicorn.access` yields no console line at INFO
(20) but exactly one line at ERROR (40). -/
theorem c4_uvicorn_access_policy :
    LoguruLog.loguruAdd "INFO" = Except.ok 20 ∧
    LoguruLog.interceptedLoggerFor "INFO" [] "uvicorn.access" = some ⟨30, 1, false⟩ ∧
    LoguruLog.emitIntercepted 20 LoguruLog.interceptRoot ⟨30, 1, false⟩ 20 = 0 ∧
    LoguruLog.emitIntercepted 20 LoguruLog.interceptRoot ⟨30, 1, false⟩ 40 = 1 := by
  refine ⟨rfl, by decide, by decide, by decide⟩

/-- Claim C3, counterexample: with backup count 0 (an admissible configuration
value), a write that crosses the size limit does trigger a rollover, yet the
handler merely closes and reopens the same file: no backup is created and the
active file is not fresh — it still holds the earlier record.  This falsifies
"each write whose cumulative size crosses N triggers exactly one rotation
producing a fresh active file and one new backup" as stated for every
configured backup count. -/
theorem c3_rotation_counterexample :
    Rotation.shouldRollover 1 ⟨["x"], []⟩ "a" = true ∧
    Rotation.rotEmit 1 0 ⟨["x"], []⟩ "a" = (⟨["x", "a"], []⟩, true) := by
  constructor
  · decide
  · decide

/-- Claim C6, counterexample: (a) the Loguru console sink is added with
`colorize=colorize` (default `True`), which bypasses tty auto-detection, so
with the default configuration the console line contains ANSI escape codes no
matter what the destination stream is — even for a record whose own fields are
escape-free; (b) in the standard-logging module, even with stdout not a tty,
a record whose message already contains an escape sequence is formatted to a
line containing one.  Both falsify "whenever the destination is not a
terminal, output lines contain no ANSI sequences, for every record". -/
theorem c6_colorize_counterexample :
    (hasEsc LoguruLog.sampleLoguruRecord.message = false ∧
      hasEsc (LoguruLog.consoleLine true LoguruLog.sampleLoguruRecord) = true) ∧
    hasEsc (StdLog.StandardizedFormatter.format false none StdLog.escRecord).1 = true := by
  refine ⟨⟨by decide, by decide⟩, by decide⟩

/-- Claim C9, counterexample: configuring with a malformed per-logger level
name in `additional_loggers` does not fail — `intercept_standard_logging`
resolves `"NOTALEVEL"` via `getattr(logging, ..., logging.INFO)` and silently
configures the logger at INFO (20). -/
theorem c9_level_counterexample :
    LoguruLog.configure_logging "INFO"
        [LoguruLog.LoggerSpec.withLevel "x" (LoguruLog.PyLevel.str "NOTALEVEL")]
      = Except.ok (20, [("uvicorn", 20), ("uvicorn.error", 20),
          ("uvicorn.access", 30), ("x", 20)]) := rfl

/-- Claim C9 as amended: a malformed *global* level name does make setup fail
with a configuration error (Loguru's `logger.add` rejects unknown level
names).  A malformed *per-logger* level name in `additional_loggers` fails
only when its uppercased form names a non-level attribute of the `logging`
module (for example `"basic_format"`, which `getattr` resolves to
`logging.BASIC_FORMAT` and on which `setLevel` then raises, aborting setup);
for every other malformed name — one whose uppercased form is no attribute of
the module at all — `getattr` falls back to its default and the logger is
silently configured at INFO (20), with setup succeeding. -/
theorem c9_level_amended :
    (∀ (g : String) (adds : List LoguruLog.LoggerSpec),
      LoguruLog.loguruLevelTable.lookup g = none →
      LoguruLog.configure_logging g adds = Except.error "invalid level name") ∧
    (∀ s : String,
      LoguruLog.loggingAttrs.lookup (LoguruLog.pyUpper s) = none →
      LoguruLog.resolveLevel (LoguruLog.PyLevel.str s) = Except.ok 20) ∧
    (∀ s : String,
      LoguruLog.loggingAttrs.lookup (LoguruLog.pyUpper s) = some LoguruLog.PyObj.nonLevel →
      LoguruLog.resolveLevel (LoguruLog.PyLevel.str s) = Except.error "Unknown level") ∧
    LoguruLog.configure_logging "INFO"
        [LoguruLog.LoggerSpec.withLevel "y" (LoguruLog.PyLevel.str "basic_format")]
      = Except.error "Unknown level" := by
  refine ⟨?_, ?_, ?_, rfl⟩
  · intro g adds h
    simp only [LoguruLog.configure_logging, LoguruLog.loguruAdd, h]
  · intro s h
    simp only [LoguruLog.resolveLevel, LoguruLog.getattrLevel, h, LoguruLog.checkLevel]
  · intro s h
    simp only [LoguruLog.resolveLevel, LoguruLog.getattrLevel, h, LoguruLog.checkLevel]

/-- Witness for C9 as amended: "VERBOSE" is no Loguru level (setup fails),
"NOTALEVEL" uppercases to no attribute of the `logging` module (silently
INFO), and "basic_format" uppercases to the non-level attribute
`BASIC_FORMAT` (setLevel raises). -/
theorem c9_level_amended_witness :
    LoguruLog.configure_logging "VERBOSE" [] = Except.error "invalid level name" ∧
    LoguruLog.resolveLevel (LoguruLog.PyLevel.str "NOTALEVEL") = Except.ok 20 ∧
    LoguruLog.resolveLevel (LoguruLog.PyLevel.str "basic_format")
      = Except.error "Unknown level" :=
  ⟨c9_level_amended.1 "VERBOSE" [] (by decide),
   c9_level_amended.2.1 "NOTALEVEL" (by decide),
   c9_level_amended.2.2.1 "basic_format" (by decide)⟩

/-- Claim C5: every logger name configured by the interception loop ends with
propagation disabled, so a single record emitted on it produces at most one
output line, and exactly one when it passes both the logger's floor and the
sink's threshold — never two via both the shim and the external facade's own
handlers. -/
theorem c5_propagation_disabled (level : String)
    (adds : List LoguruLog.LoggerSpec) (name : String) (lg : LoguruLog.ILogger)
    (h : LoguruLog.interceptedLoggerFor level adds name = some lg) :
    lg.propagate = false ∧
    ∀ sinkLevel levelno : Nat,
      LoguruLog.emitIntercepted sinkLevel LoguruLog.interceptRoot lg levelno ≤ 1 ∧
      (lg.level ≤ levelno → sinkLevel ≤ levelno →
        LoguruLog.emitIntercepted sinkLevel LoguruLog.interceptRoot lg levelno = 1) := by
  unfold LoguruLog.interceptedLoggerFor at h
  obtain ⟨lv, hlv, hl⟩ := Option.bind_eq_some.mp h
  obtain ⟨n, hn, hlg⟩ := Option.map_eq_some'.mp hl
  subst hlg
  refine ⟨rfl, ?_⟩
  intro sinkLevel levelno
  have he : LoguruLog.emitIntercepted sinkLevel LoguruLog.interceptRoot
      ⟨n, 1, false⟩ levelno
      = if n ≤ levelno then
          (if sinkLevel ≤ levelno then 1 else 0) else 0 := by
    simp [LoguruLog.emitIntercepted]
  constructor
  · rw [he]
    split
    · split <;> omega
    · omega
  · intro h1 h2
    rw [he, if_pos h1, if_pos h2]

/-- Witness for C5 at the default uvicorn logger with global level INFO and an
ERROR record. -/
theorem c5_propagation_witness :
    LoguruLog.interceptedLoggerFor "INFO" [] "uvicorn" = some ⟨20, 1, false⟩ ∧
    (⟨20, 1, false⟩ : LoguruLog.ILogger).propagate = false ∧
    LoguruLog.emitIntercepted 20 LoguruLog.interceptRoot ⟨20, 1, false⟩ 40 = 1 := by
  have h := c5_propagation_disabled "INFO" [] "uvicorn" ⟨20, 1, false⟩ (by decide)
  exact ⟨by decide, h.1, (h.2 20 40).2 (by decide) (by decide)⟩

/-- Claim C6 as amended: the formatters themselves introduce no escape
sequences when colorization is off — for the standard-logging formatter with
stdout not a tty, and for the Loguru console sink with `colorize=False`, the
output line is escape-free whenever the record's fields are; but in the
Loguru module suppression is governed solely by the `colorize` flag (default
`True`), which produces escape codes for every record regardless of the
destination stream. -/
theorem c6_colorize_amended :
    (∀ (serviceName : Option String) (r : StdLog.LogRecord),
      hasEsc r.asctime = false → hasEsc r.levelname = false →
      hasEsc r.name = false → hasEsc r.msg = false →
      (∀ s, serviceName = some s → hasEsc s = false) →
      hasEsc (StdLog.StandardizedFormatter.format false serviceName r).1 = false) ∧
    (∀ r : LoguruLog.LoguruRecord,
      hasEsc r.time = false → hasEsc r.level = false → hasEsc r.name = false →
      hasEsc r.function = false → hasEsc r.message = false →
      hasEsc (LoguruLog.consoleLine false r) = false) ∧
    (∀ r : LoguruLog.LoguruRecord,
      hasEsc (LoguruLog.consoleLine true r) = true) := by
  have l1 : hasEsc "[" = false := by decide
  have l2 : hasEsc "] [" = false := by decide
  have l3 : hasEsc ":" = false := by decide
  have l4 : hasEsc "] " = false := by decide
  have l5 : hasEsc " | " = false := by decide
  have l6 : hasEsc " - " = false := by decide
  have lg : hasEsc LoguruLog.GREEN = true := by decide
  refine ⟨?_, ?_, ?_⟩
  · intro sn r h1 h2 h3 h4 hsn
    cases sn with
    | none =>
      simp [StdLog.StandardizedFormatter.format, StdLog.baseFormat, hasEsc_append,
        h1, h2, h3, h4, hasEsc_natRepr, l1, l2, l3, l4]
    | some sname =>
      have hs := hsn sname rfl
      simp [StdLog.StandardizedFormatter.format, StdLog.baseFormat, hasEsc_append,
        h1, h2, h3, h4, hs, hasEsc_natRepr, l1, l2, l3, l4]
  · intro r h1 h2 h3 h4 h5
    simp [LoguruLog.consoleLine, LoguruLog.loguruPlainLine, hasEsc_append,
      hasEsc_padLeftJust, h1, h2, h3, h4, h5, hasEsc_natRepr, l3, l5, l6]
  · intro r
    simp [LoguruLog.consoleLine, LoguruLog.loguruColorLine, hasEsc_append, lg]

/-- Witness for C6 as amended, at escape-free sample records. -/
theorem c6_colorize_witness :
    hasEsc (StdLog.StandardizedFormatter.format false none StdLog.sampleRecord).1 = false ∧
    hasEsc (LoguruLog.consoleLine false LoguruLog.sampleLoguruRecord) = false ∧
    hasEsc (LoguruLog.consoleLine true LoguruLog.sampleLoguruRecord) = true :=
  ⟨c6_colorize_amended.1 none StdLog.sampleRecord (by decide) (by decide) (by decide)
      (by decide) (fun s hs => Option.noConfusion hs),
   c6_colorize_amended.2.1 LoguruLog.sampleLoguruRecord (by decide) (by decide)
      (by decide) (by decide) (by decide),
   c6_colorize_amended.2.2 LoguruLog.sampleLoguruRecord⟩

/-- The root logger after `configure_logging`: level set, handlers replaced by
the fresh console handler (plus the file handler when configured), propagation
untouched. -/
theorem configure_root_eq (l : Nat) (i w : Bool) (s : StdLog.StdState) :
    (StdLog.configure_logging l i w s).root
      = ⟨l, ⟨l, false⟩ :: (if w then [⟨l, true⟩] else []), s.root.propagate⟩ := by
  cases i <;> simp [StdLog.configure_logging, StdLog.configure_uvicorn_logging]

/-- Claim C1: after `configure_logging` with minimum level L, a record at a
level strictly below L produces no output line on the root logger's sinks, and
a record at or above L produces exactly one line per attached sink. -/
theorem c1_level_filtering (L Lp : Level) (includeUvicorn withFile : Bool)
    (s : StdLog.StdState) :
    (Lp.no < L.no →
      StdLog.loggerLines (StdLog.configure_logging L.no includeUvicorn withFile s).root
        Lp.no = 0) ∧
    (L.no ≤ Lp.no →
      StdLog.loggerLines (StdLog.configure_logging L.no includeUvicorn withFile s).root
        Lp.no
        = (StdLog.configure_logging L.no includeUvicorn withFile s).root.handlers.length) := by
  rw [configure_root_eq]
  constructor
  · intro h
    have hn : ¬ (L.no ≤ Lp.no) := by omega
    simp [StdLog.loggerLines, hn]
  · intro h
    cases withFile <;> simp [StdLog.loggerLines, StdLog.handlerLines, h]

/-- Witness for C1: minimum level INFO with console and file sinks; a DEBUG
record yields no line, an ERROR record yields one line per sink. -/
theorem c1_level_filtering_witness :
    (Level.debug.no < Level.info.no ∧ Level.info.no ≤ Level.error.no) ∧
    StdLog.loggerLines
      (StdLog.configure_logging Level.info.no true true StdLog.initStdState).root
      Level.debug.no = 0 ∧
    StdLog.loggerLines
      (StdLog.configure_logging Level.info.no true true StdLog.initStdState).root
      Level.error.no
      = (StdLog.configure_logging Level.info.no true true StdLog.initStdState).root.handlers.length :=
  ⟨by decide,
   (c1_level_filtering .info .debug true true StdLog.initStdState).1 (by decide),
   (c1_level_filtering .info .error true true StdLog.initStdState).2 (by decide)⟩

/-- Claim C2: a second `configure_logging` call replaces the previously
attached sinks instead of accumulating them — the root logger after two calls
equals the root logger after the second call alone, carries exactly one
console handler plus at most one file handler, and a single record emitted
afterwards produces exactly the same lines as if only the second call had
happened (no duplicates); with uvicorn configuration enabled the whole logging
state after two calls equals the state after the second call alone. -/
theorem c2_reconfigure_replaces (l1 l2 : Nat) (i1 i2 w1 w2 : Bool)
    (s : StdLog.StdState) :
    (StdLog.configure_logging l2 i2 w2 (StdLog.configure_logging l1 i1 w1 s)).root
      = (StdLog.configure_logging l2 i2 w2 s).root ∧
    (StdLog.configure_logging l2 i2 w2 (StdLog.configure_logging l1 i1 w1 s)).root.handlers.length
      = 1 + (if w2 then 1 else 0) ∧
    (∀ levelno : Nat,
      StdLog.loggerLines
        (StdLog.configure_logging l2 i2 w2 (StdLog.configure_logging l1 i1 w1 s)).root
        levelno
      = StdLog.loggerLines (StdLog.configure_logging l2 i2 w2 s).root levelno) ∧
    (i2 = true →
      StdLog.configure_logging l2 i2 w2 (StdLog.configure_logging l1 i1 w1 s)
        = StdLog.configure_logging l2 i2 w2 s) := by
  have hroot :
      (StdLog.configure_logging l2 i2 w2 (StdLog.configure_logging l1 i1 w1 s)).root
        = (StdLog.configure_logging l2 i2 w2 s).root := by
    simp [configure_root_eq]
  refine ⟨hroot, ?_, fun levelno => by rw [hroot], ?_⟩
  · rw [configure_root_eq]
    cases w2 <;> simp
  · intro hi
    subst hi
    have hfull : ∀ t : StdLog.StdState,
        StdLog.configure_logging l2 true w2 t
          = { root := ⟨l2, ⟨l2, false⟩ :: (if w2 then [⟨l2, true⟩] else []),
                t.root.propagate⟩,
              uvicorn := StdLog.uvicornConfiguredLogger l2 w2,
              uvicornError := StdLog.uvicornConfiguredLogger l2 w2,
              uvicornAccess :=
                { StdLog.uvicornConfiguredLogger l2 w2 with level := 30 } } := by
      intro t
      simp [StdLog.configure_logging, StdLog.configure_uvicorn_logging]
    rw [hfull, hfull, configure_root_eq]

/-- Witness for C2: reconfiguring from (DEBUG, no uvicorn, console only) to
(INFO, uvicorn, console+file) gives the same state as one configuration, and
the same line counts for an INFO record. -/
theorem c2_reconfigure_witness :
    StdLog.configure_logging 20 true true
        (StdLog.configure_logging 10 false false StdLog.initStdState)
      = StdLog.configure_logging 20 true true StdLog.initStdState ∧
    StdLog.loggerLines
        (StdLog.configure_logging 20 true true
          (StdLog.configure_logging 10 false false StdLog.initStdState)).root 20
      = StdLog.loggerLines
          (StdLog.configure_logging 20 true true StdLog.initStdState).root 20 := by
  have h := c2_reconfigure_replaces 10 20 false true false true StdLog.initStdState
  exact ⟨h.2.2.2 rfl, h.2.2.1 20⟩

open Rotation

theorem take_take_append {α : Type} (X l : List α) (j k : Nat) (h : k ≤ j) :
    (X ++ l.take j).take k = (X ++ l).take k := by
  rw [List.take_append_eq_append_take, List.take_append_eq_append_take, List.take_take]
  congr 1
  rw [Nat.min_eq_left (le_trans (Nat.sub_le k X.length) h)]

theorem rotEmit_crossing (N B : Nat) (hB : 0 < B) (s : RotState) (msg : String)
    (h : shouldRollover N s msg = true) :
    rotEmit N B s msg = (⟨[msg], s.active :: s.backups.take (B - 1)⟩, true) := by
  simp only [rotEmit, h, if_true, doRollover, hB, List.nil_append]

theorem rotEmit_backups_length (N B : Nat) (hB : 0 < B) (s : RotState) (m : String)
    (h : s.backups.length ≤ B) : ((rotEmit N B s m).1).backups.length ≤ B := by
  by_cases hr : shouldRollover N s m = true
  · rw [rotEmit_crossing N B hB s m hr]
    simp [List.length_take]
    omega
  · simp only [rotEmit, Bool.not_eq_true] at hr ⊢
    rw [hr]
    simpa using h

theorem rotRun_backups_length (N B : Nat) (hB : 0 < B) :
    ∀ (msgs : List String) (s : RotState), s.backups.length ≤ B →
      ((rotRun N B s msgs).1).backups.length ≤ B := by
  intro msgs
  induction msgs with
  | nil => intro s h; exact h
  | cons m rest ih =>
    intro s h
    exact ih _ (rotEmit_backups_length N B hB s m h)

theorem rotRun_cons (N B : Nat) (s : RotState) (m : String) (rest : List String) :
    rotRun N B s (m :: rest)
      = ((rotRun N B (rotEmit N B s m).1 rest).1,
         (if (rotEmit N B s m).2 then 1 else 0) + (rotRun N B (rotEmit N B s m).1 rest).2) := rfl

theorem rotRun_all_crossing (N B1 : Nat) (hN : 0 < N) :
    ∀ (rest : List String) (m : String) (a : List String) (bs : List (List String)),
      (∀ x ∈ m :: rest, N ≤ x.length + 1) →
      rotRun N (B1 + 1) ⟨a, bs⟩ (m :: rest)
        = (⟨[rest.getLastD m],
            (((m :: rest).dropLast.reverse.map (fun x => [x])) ++ a :: bs).take (B1 + 1)⟩,
           rest.length + 1) := by
  intro rest
  induction rest with
  | nil =>
    intro m a bs hcross
    have hm : N ≤ m.length + 1 := hcross m (by simp)
    have hroll : shouldRollover N ⟨a, bs⟩ m = true := by
      simp only [shouldRollover, Bool.and_eq_true, decide_eq_true_eq]
      exact ⟨hN, by omega⟩
    simp only [rotRun, rotEmit_crossing N (B1 + 1) (by omega) ⟨a, bs⟩ m hroll]
    simp [List.take_succ_cons]
  | cons m2 rest2 ih =>
    intro m a bs hcross
    have hm : N ≤ m.length + 1 := hcross m (by simp)
    have hroll : shouldRollover N ⟨a, bs⟩ m = true := by
      simp only [shouldRollover, Bool.and_eq_true, decide_eq_true_eq]
      exact ⟨hN, by omega⟩
    have hstep := rotEmit_crossing N (B1 + 1) (by omega) ⟨a, bs⟩ m hroll
    have hcross2 : ∀ x ∈ m2 :: rest2, N ≤ x.length + 1 := by
      intro x hx
      exact hcross x (by simp [hx])
    have ih2 := ih m2 [m] (a :: bs.take B1) hcross2
    have hback :
        ((List.map (fun x => [x]) (m2 :: rest2).dropLast.reverse) ++
            [m] :: a :: List.take B1 bs).take (B1 + 1)
          = ((List.map (fun x => [x]) (m :: m2 :: rest2).dropLast.reverse) ++
              a :: bs).take (B1 + 1) := by
      have h1 : [m] :: a :: List.take B1 bs = ([m] :: a :: bs).take (B1 + 2) := by
        simp [List.take_succ_cons]
      rw [h1, take_take_append _ _ _ _ (by omega), List.dropLast_cons₂,
        List.reverse_cons, List.map_append]
      simp
    rw [rotRun_cons, hstep]
    dsimp only
    rw [Nat.add_sub_cancel] at *
    rw [ih2, hback]
    simp [List.getLastD_cons, List.getLast?_cons, List.getLastD_eq_getLast?]
    omega

theorem c3_rotation_amended (N B : Nat) (hB : 0 < B) :
    (∀ msgs : List String,
      ((rotRun N B rotInit msgs).1).backups.length ≤ B) ∧
    (∀ (s : RotState) (msg : String),
      shouldRollover N s msg = true →
      rotEmit N B s msg = (⟨[msg], s.active :: s.backups.take (B - 1)⟩, true)) ∧
    (∀ msgs : List String, msgs.length = B + 1 → 0 < N →
      (∀ m ∈ msgs, N ≤ m.length + 1) →
      (rotRun N B rotInit msgs).2 = B + 1 ∧
      ((rotRun N B rotInit msgs).1).backups = msgs.dropLast.reverse.map (fun m => [m]) ∧
      ((rotRun N B rotInit msgs).1).backups.length = B ∧
      [] ∉ ((rotRun N B rotInit msgs).1).backups) := by
  obtain ⟨B1, rfl⟩ : ∃ B1, B = B1 + 1 := ⟨B - 1, by omega⟩
  refine ⟨fun msgs => rotRun_backups_length N (B1 + 1) hB msgs rotInit (by simp [rotInit]),
          fun s msg h => rotEmit_crossing N (B1 + 1) hB s msg h, ?_⟩
  intro msgs hlen hN hcross
  cases msgs with
  | nil => simp at hlen
  | cons m rest =>
    have h := rotRun_all_crossing N B1 hN rest m [] [] hcross
    rw [show rotInit = (⟨[], []⟩ : RotState) from rfl, h]
    have hrest : rest.length = B1 + 1 := by
      simp at hlen
      omega
    have hXlen : ((m :: rest).dropLast.reverse.map (fun x => [x])).length = B1 + 1 := by
      simp only [List.length_map, List.length_reverse, List.length_dropLast, List.length_cons]
      omega
    have hbk : (((m :: rest).dropLast.reverse.map (fun x => [x])) ++ [] :: []).take (B1 + 1)
        = (m :: rest).dropLast.reverse.map (fun x => [x]) := by
      rw [← hXlen]
      exact List.take_left _ _
    refine ⟨by omega, hbk, by rw [hbk, hXlen], ?_⟩
    rw [hbk]
    intro hmem
    obtain ⟨x, hx, hxe⟩ := List.mem_map.mp hmem
    exact List.cons_ne_nil x [] hxe

/-- Witness for C3 as amended: limit 5 bytes, backup count 2, three records of
4 characters each (5 bytes per line): three rotations, and the two surviving
backups hold the first two records while the initial empty file's backup slot
is gone. -/
theorem c3_rotation_witness :
    (0 : Nat) < 2 ∧
    (rotRun 5 2 rotInit ["aaaa", "bbbb", "cccc"]).2 = 3 ∧
    ((rotRun 5 2 rotInit ["aaaa", "bbbb", "cccc"]).1).backups = [["bbbb"], ["aaaa"]] := by
  have h := (c3_rotation_amended 5 2 (by decide)).2.2 ["aaaa", "bbbb", "cccc"]
    (by decide) (by decide) (by decide)
  exact ⟨by decide, h.1, h.2.1.trans (by decide)⟩

end Surreality
